import Mathlib

/-!
Verification development for the FootScan prediction core
(`backend/app/models/*.py`, `backend/app/backtest/backtest.py`,
`backend/app/prediction/predict.py`).

Python floats are embedded as exact rationals; the two transcendental
helpers that the scoring paths need (`exp` inside the Poisson pmf and
`log` inside the log-loss) are passed in as function arguments, so every
theorem states its conclusion for an arbitrary such function under the
positivity facts the real functions satisfy.  Score strings such as
"2-1" are embedded as lists of characters, with the split/parse helpers
mirroring the Python `str.split` / `int` calls used by the combiner.
-/

/-- Python `round` (round-half-to-even) on an exact rational. -/
def pyRound (q : ℚ) : ℤ :=
  let f := ⌊q⌋
  let r := q - f
  if r < 1/2 then f
  else if 1/2 < r then f + 1
  else if f % 2 = 0 then f else f + 1

/-- `np.mean` of a list of rationals (0 on the empty list, which the
sources guard against wherever it matters). -/
def meanQ (xs : List ℚ) : ℚ := xs.sum / xs.length

/-- `np.var` (population variance, the numpy default `ddof = 0`). -/
def varQ (xs : List ℚ) : ℚ := meanQ (xs.map (fun x => (x - meanQ xs)^2))

/-- Mean of a list of integers, as a rational (what `np.mean` returns on
the integer score lists collected by the combiner). -/
def meanZ (xs : List ℤ) : ℚ := (xs.sum : ℚ) / xs.length

/-- The character for a decimal digit. -/
def digitChar (d : ℕ) : Char := Char.ofNat (48 + d)

/-- Decimal rendering of a natural number, fuel-indexed so that it is
structurally recursive (the fuel `n + 1` always suffices). -/
def natCharsCore : ℕ → ℕ → List Char → List Char
  | 0, _, acc => acc
  | fuel + 1, n, acc =>
      if n < 10 then digitChar n :: acc
      else natCharsCore fuel (n / 10) (digitChar (n % 10) :: acc)

/-- Decimal rendering of a natural number. -/
def natChars (n : ℕ) : List Char := natCharsCore (n + 1) n []

/-- Decimal rendering of an integer (Python `str` of an `int`). -/
def intChars (z : ℤ) : List Char :=
  if z < 0 then '-' :: natChars z.natAbs else natChars z.natAbs

/-- The Python f-string `f"{h}-{a}"` building a score string. -/
def scoreChars (h a : ℤ) : List Char := intChars h ++ '-' :: intChars a

/-- Digit value of a character, `none` on a non-digit. -/
def charDigitVal (c : Char) : Option ℕ :=
  if '0' ≤ c ∧ c ≤ '9' then some (c.toNat - 48) else none

/-- Accumulating decimal parse over a character list; `none` as soon as a
non-digit is hit. -/
def parseDigitsAux (acc : Option ℕ) (cs : List Char) : Option ℕ :=
  cs.foldl (fun a c =>
    match a, charDigitVal c with
    | some n, some d => some (n * 10 + d)
    | _, _ => none) acc

/-- Parse of a non-empty all-digit character list. -/
def parseNatChars (cs : List Char) : Option ℕ :=
  if cs.isEmpty then none else parseDigitsAux (some 0) cs

/-- Model of the Python `int(...)` call on one fragment of a score
string: an optional leading minus sign followed by decimal digits
(`none` models the `ValueError` branch). -/
def parseIntChars : List Char → Option ℤ
  | '-' :: rest => (parseNatChars rest).map (fun n => -(n : ℤ))
  | cs => (parseNatChars cs).map (fun n => (n : ℤ))

/-- Model of the Python `score_str.split('-')` call: split a character
list at every dash, keeping empty fragments exactly as `str.split` does. -/
def splitDash : List Char → List (List Char)
  | [] => [[]]
  | c :: rest =>
      let groups := splitDash rest
      if c = '-' then [] :: groups
      else
        match groups with
        | [] => [[c]]
        | g :: gs => (c :: g) :: gs

/-- Match outcome bucket used by the backtester. -/
inductive Outcome where
  | home
  | draw
  | away
deriving DecidableEq, BEq, Repr

/-- The Feature Vector built by `PredictionPipeline._build_features`
(`prediction/predict.py`): named scalars consumed through `.get` by the
models.  Every field is present, matching the dictionaries the builder
actually produces. -/
structure Features where
  home_form : ℚ := 1/2
  away_form : ℚ := 1/2
  home_attack_strength : ℚ := 1
  home_defense_strength : ℚ := 1
  away_attack_strength : ℚ := 1
  away_defense_strength : ℚ := 1
  home_advantage : ℚ := 21/20
  home_news_sentiment : ℚ := 1/2
  away_news_sentiment : ℚ := 1/2
deriving DecidableEq, Repr

/-- The Outcome Prediction dictionary returned by every model `predict`
and by the combiner: the three probabilities, the "H-A" score string,
and the optional `confidence` key (absent from the four base models,
present on the ensemble output).  Model-specific diagnostic keys
(`home_lambda`, `home_state`, ...) are not consumed by any claim and are
exposed through the fitted model states instead. -/
structure OutcomePrediction where
  home_probability : ℚ
  draw_probability : ℚ
  away_probability : ℚ
  predicted_score : List Char
  confidence : Option ℚ := none
deriving DecidableEq, Repr

/-- Fitted state of `PoissonModel` (`models/poisson.py`), with the
initializer defaults `home_lambda = 1.5`, `away_lambda = 1.2`,
`max_score = 10`. -/
structure PoissonModel where
  home_lambda : ℚ := 3/2
  away_lambda : ℚ := 6/5
  max_score : ℕ := 10
deriving DecidableEq, Repr

/-- `PoissonModel.fit`: each lambda becomes the history mean floored at
0.1 (initializer default on an empty history), then is scaled by the
attack/defense factors when a feature map is supplied. -/
def PoissonModel.fit (m : PoissonModel) (home_goals away_goals : List ℚ)
    (features : Option Features) : PoissonModel :=
  let hl := if 0 < home_goals.length then max (meanQ home_goals) (1/10) else 3/2
  let al := if 0 < away_goals.length then max (meanQ away_goals) (1/10) else 6/5
  match features with
  | some f =>
      { m with
        home_lambda := hl * (f.home_attack_strength * f.away_defense_strength),
        away_lambda := al * (f.away_attack_strength * f.home_defense_strength) }
  | none => { m with home_lambda := hl, away_lambda := al }

/-- Python float addition on the Poisson scoring path, where `none` is
the NaN that scipy produces for an invalid rate: NaN propagates through
every arithmetic operation. -/
def pyAdd : Option ℚ → Option ℚ → Option ℚ
  | some a, some b => some (a + b)
  | _, _ => none

/-- NaN-propagating Python float multiplication. -/
def pyMul : Option ℚ → Option ℚ → Option ℚ
  | some a, some b => some (a * b)
  | _, _ => none

/-- NaN-propagating Python float division (the source divides only under
a guard that already excludes NaN and zero). -/
def pyDiv : Option ℚ → Option ℚ → Option ℚ
  | some a, some b => some (a / b)
  | _, _ => none

/-- The Python `<` on possibly-NaN floats: every ordered comparison
involving NaN is False, as for IEEE floats. -/
def pyLt : Option ℚ → Option ℚ → Bool
  | some a, some b => decide (a < b)
  | _, _ => false

/-- The value `scipy.stats.poisson.pmf(k, lam)` computes for a valid
rate, up to the transcendental factor: the argument `E` stands for
`lam ↦ exp (-lam)` and is quantified in the theorems together with the
positivity it enjoys on the reals. -/
def poissonPmfVal (E : ℚ → ℚ) (lam : ℚ) (k : ℕ) : ℚ :=
  E lam * lam ^ k / (Nat.factorial k : ℚ)

/-- `scipy.stats.poisson.pmf(k, lam)`: the Poisson `_argcheck` is
`mu >= 0`, and for a rate that fails it scipy fills the output with its
bad value NaN (`none` here) instead of evaluating the mass. -/
def poissonPmf (E : ℚ → ℚ) (lam : ℚ) (k : ℕ) : Option ℚ :=
  if 0 ≤ lam then some (poissonPmfVal E lam k) else none

/-- The rate actually used by `PoissonModel.predict` for the home side:
the fitted lambda scaled by `(0.5 + home_form)` when a (truthy) feature
map is passed. -/
def PoissonModel.adjusted_home (m : PoissonModel) (features : Option Features) : ℚ :=
  match features with
  | some f => m.home_lambda * (1/2 + f.home_form)
  | none => m.home_lambda

/-- The rate actually used by `PoissonModel.predict` for the away side. -/
def PoissonModel.adjusted_away (m : PoissonModel) (features : Option Features) : ℚ :=
  match features with
  | some f => m.away_lambda * (1/2 + f.away_form)
  | none => m.away_lambda

/-- The double loop of `PoissonModel.predict` over scorelines
`0 .. max_score - 1` for each side, accumulating `prob = hp i * ap j`
into the bucket selected by `home > away` / `home == away` /
`home < away`; returns (home_win, draw, away_win) before normalization,
with NaN propagating through the three running sums. -/
def outcomeBuckets (hp ap : ℕ → Option ℚ) (n : ℕ) :
    Option ℚ × Option ℚ × Option ℚ :=
  (List.range n).foldl (fun acc i =>
    (List.range n).foldl (fun acc2 j =>
      let prob := pyMul (hp i) (ap j)
      if j < i then (pyAdd acc2.1 prob, acc2.2.1, acc2.2.2)
      else if i = j then (acc2.1, pyAdd acc2.2.1 prob, acc2.2.2)
      else (acc2.1, acc2.2.1, pyAdd acc2.2.2 prob)) acc)
    (some 0, some 0, some 0)

/-- Closed form of the bucket loop when every pmf value is a valid
(non-NaN) number; the bridge lemma `outcomeBuckets_some` below equates
the loop with it. -/
def outcomeBucketsSum (hp ap : ℕ → ℚ) (n : ℕ) : ℚ × ℚ × ℚ :=
  (∑ i in Finset.range n, ∑ j in Finset.range n, if j < i then hp i * ap j else 0,
   ∑ i in Finset.range n, ∑ j in Finset.range n, if i = j then hp i * ap j else 0,
   ∑ i in Finset.range n, ∑ j in Finset.range n, if i < j then hp i * ap j else 0)

/-- The dictionary returned by `PoissonModel.predict`: its probability
entries are Python floats that are all NaN (`none`) whenever scipy
rejected the rate. -/
structure PoissonPrediction where
  home_probability : Option ℚ
  draw_probability : Option ℚ
  away_probability : Option ℚ
  predicted_score : List Char
deriving DecidableEq, Repr

/-- `PoissonModel.predict` (`models/poisson.py`, lines 39-94): product of
two independent Poisson pmfs over the score grid, bucket sums, the
`if total > 0` normalization (False when the total is NaN, leaving the
raw NaN buckets in the result), and the rounded-rate score string.  The
`try/except` wrapper is not modelled: every step here is total, and a
negative rate yields NaN probabilities rather than an exception. -/
def PoissonModel.predict (E : ℚ → ℚ) (m : PoissonModel)
    (features : Option Features) : PoissonPrediction :=
  let home_lambda := m.adjusted_home features
  let away_lambda := m.adjusted_away features
  let b := outcomeBuckets (poissonPmf E home_lambda) (poissonPmf E away_lambda) m.max_score
  let home_win := b.1
  let draw := b.2.1
  let away_win := b.2.2
  let total := pyAdd (pyAdd home_win draw) away_win
  let ps := scoreChars (pyRound home_lambda) (pyRound away_lambda)
  if pyLt (some 0) total then
    { home_probability := pyDiv home_win total,
      draw_probability := pyDiv draw total,
      away_probability := pyDiv away_win total, predicted_score := ps }
  else
    { home_probability := home_win, draw_probability := draw,
      away_probability := away_win, predicted_score := ps }

/-- Fitted state of `NegativeBinomialModel` (`models/negative_binomial.py`)
with its initializer defaults. -/
structure NegativeBinomialModel where
  home_mu : ℚ := 3/2
  home_alpha : ℚ := 1
  away_mu : ℚ := 6/5
  away_alpha : ℚ := 1
  max_score : ℕ := 10
deriving DecidableEq, Repr

/-- `NegativeBinomialModel.fit` (`models/negative_binomial.py`, lines
21-51): per side, when the history has more than one entry, the mean is
floored at 0.1 and the dispersion is the moment estimate
`mean^2 / (var - mean)` floored at 0.1 when `var > mean`, else 1.0;
shorter histories leave the side untouched.  The feature block then
scales the two means (only). -/
def NegativeBinomialModel.fit (m : NegativeBinomialModel)
    (home_goals away_goals : List ℚ) (features : Option Features) :
    NegativeBinomialModel :=
  let m1 :=
    if 1 < home_goals.length then
      { m with
        home_mu := max (meanQ home_goals) (1/10),
        home_alpha :=
          if meanQ home_goals < varQ home_goals then
            max ((meanQ home_goals)^2 / (varQ home_goals - meanQ home_goals)) (1/10)
          else 1 }
    else m
  let m2 :=
    if 1 < away_goals.length then
      { m1 with
        away_mu := max (meanQ away_goals) (1/10),
        away_alpha :=
          if meanQ away_goals < varQ away_goals then
            max ((meanQ away_goals)^2 / (varQ away_goals - meanQ away_goals)) (1/10)
          else 1 }
    else m1
  match features with
  | some f =>
      { m2 with
        home_mu := m2.home_mu * (f.home_attack_strength * f.away_defense_strength),
        away_mu := m2.away_mu * (f.away_attack_strength * f.home_defense_strength) }
  | none => m2

/-- Fitted state of `HMMFormModel` (`models/hmm.py`): only the prior
over states is mutable; the transition and emission tables are the
fixed arrays from the initializer.  `predict` never reads
`state_probs` (or the transition matrix), so its output depends only on
the feature map. -/
structure HMMFormModel where
  state_probs : List ℚ := [33/100, 33/100, 34/100]
deriving DecidableEq, Repr

/-- The fixed transition matrix of `HMMFormModel.__init__`. -/
def HMMFormModel.transition_matrix : List (List ℚ) :=
  [[3/5, 3/10, 1/10], [3/10, 1/2, 1/5], [1/5, 2/5, 2/5]]

/-- The fixed emission table of `HMMFormModel.__init__`: row = form
state (good / medium / poor), column = (win, draw, loss) probability of
that state. -/
def HMMFormModel.emission_probs (state i : ℕ) : ℚ :=
  match state, i with
  | 0, 0 => 4/5
  | 0, 1 => 3/20
  | 0, 2 => 1/20
  | 1, 0 => 2/5
  | 1, 1 => 2/5
  | 1, 2 => 1/5
  | 2, 0 => 1/10
  | 2, 1 => 3/10
  | 2, 2 => 3/5
  | _, _ => 0

/-- `HMMFormModel.fit` (`models/hmm.py`, lines 27-46): with at least 5
results, the win rate selects one of three fixed priors. -/
def HMMFormModel.fit (m : HMMFormModel) (results : List ℚ) : HMMFormModel :=
  if results.length < 5 then m
  else if 3/5 < meanQ results then { state_probs := [7/10, 1/4, 1/20] }
  else if 2/5 < meanQ results then { state_probs := [3/10, 1/2, 1/5] }
  else { state_probs := [1/10, 3/10, 3/5] }

/-- `HMMFormModel._get_state_from_form`: 0 (good) above 0.65, 1 (medium)
above 0.35, else 2 (poor). -/
def HMMFormModel.get_state_from_form (form : ℚ) : ℕ :=
  if 13/20 < form then 0 else if 7/20 < form then 1 else 2

/-- The fixed per-state expected-goals table of
`HMMFormModel._predict_score`. -/
def HMMFormModel.state_goals (s : ℕ) : ℚ :=
  match s with
  | 0 => 9/5
  | 1 => 13/10
  | 2 => 4/5
  | _ => 0

/-- `HMMFormModel.predict` (`models/hmm.py`, lines 48-88): the two form
values are discretized into states, the emission rows are combined as
`home_prob = home_win_emission * (1 - away_loss_emission)` and
`away_prob = away_loss_emission * (1 - home_win_emission)`, the draw is
the residual (no clamp), and the `if total > 0` renormalization runs
over a total that is identically 1. -/
def HMMFormModel.predict (_m : HMMFormModel) (features : Option Features) :
    OutcomePrediction :=
  let home_form := match features with | some f => f.home_form | none => 1/2
  let away_form := match features with | some f => f.away_form | none => 1/2
  let home_state := HMMFormModel.get_state_from_form home_form
  let away_state := HMMFormModel.get_state_from_form away_form
  let home_prob :=
    HMMFormModel.emission_probs home_state 0 * (1 - HMMFormModel.emission_probs away_state 2)
  let away_prob :=
    HMMFormModel.emission_probs away_state 2 * (1 - HMMFormModel.emission_probs home_state 0)
  let draw_prob := 1 - home_prob - away_prob
  let total := home_prob + draw_prob + away_prob
  let ps := scoreChars (pyRound (HMMFormModel.state_goals home_state))
      (pyRound (HMMFormModel.state_goals away_state))
  if 0 < total then
    { home_probability := home_prob / total, draw_probability := draw_prob / total,
      away_probability := away_prob / total, predicted_score := ps }
  else
    { home_probability := home_prob, draw_probability := draw_prob,
      away_probability := away_prob, predicted_score := ps }

/-- Fitted state of `HawkesModel` (`models/hawkes.py`) with its
initializer defaults (base intensities 0.05/0.04, kernel parameters
alpha = 0.2, beta = 1.0). -/
structure HawkesModel where
  lambda0_home : ℚ := 1/20
  lambda0_away : ℚ := 1/25
  alpha : ℚ := 1/5
  beta : ℚ := 1
  max_score : ℕ := 10
deriving DecidableEq, Repr

/-- `HawkesModel.fit` (`models/hawkes.py`, lines 21-37): base intensity
per side is the history mean scaled by a small constant and floored at
0.01, then scaled by `(0.5 + form)`. -/
def HawkesModel.fit (m : HawkesModel) (home_goals away_goals : List ℚ)
    (features : Option Features) : HawkesModel :=
  let lh := if 0 < home_goals.length then max (1/100) (meanQ home_goals * (1/20))
            else m.lambda0_home
  let la := if 0 < away_goals.length then max (1/100) (meanQ away_goals * (1/25))
            else m.lambda0_away
  match features with
  | some f =>
      { m with lambda0_home := lh * (1/2 + f.home_form),
               lambda0_away := la * (1/2 + f.away_form) }
  | none => { m with lambda0_home := lh, lambda0_away := la }

/-- `HawkesModel._simulate_goals` (`models/hawkes.py`, lines 107-132):
the outer loop appends exactly one goal count per simulation run, 100
runs by default.  The inner thinning loop draws from an unseeded
process-local RNG, so the per-run count is abstracted by the oracle
`run : ℕ → ℕ` (the count the thinning loop produces on run `i`); every
statement below is quantified over that oracle. -/
def HawkesModel.simulate_goals (run : ℕ → ℕ) (simulations : ℕ) : List ℕ :=
  (List.range simulations).map run

/-- `HawkesModel.predict` (`models/hawkes.py`, lines 53-105): the code
binds `num_home_goals = len(home_goals_simulated)` where
`_simulate_goals` returns the array of 100 per-run goal counts, so both
"goal counts" are the length of that array; outcome probabilities come
from the closed-form intensity ratio with the 0.45/0.45 default when
the total intensity is not positive, the draw is the clamped residual,
and the triple is renormalized. -/
def HawkesModel.predict (runH runA : ℕ → ℕ) (m : HawkesModel)
    (match_length : ℚ) : OutcomePrediction :=
  let home_goals_simulated := HawkesModel.simulate_goals runH 100
  let away_goals_simulated := HawkesModel.simulate_goals runA 100
  let num_home_goals := home_goals_simulated.length
  let num_away_goals := away_goals_simulated.length
  let total_goals := num_home_goals + num_away_goals
  let home_intensity := m.lambda0_home * match_length
  let away_intensity := m.lambda0_away * match_length
  let total_intensity := home_intensity + away_intensity
  let home_prob :=
    if 0 < total_goals then
      (if 0 < total_intensity then home_intensity / total_intensity else 9/20)
    else 9/20
  let away_prob :=
    if 0 < total_goals then
      (if 0 < total_intensity then away_intensity / total_intensity else 9/20)
    else 9/20
  let draw_prob := max 0 (1 - home_prob - away_prob)
  let total_prob := home_prob + draw_prob + away_prob
  let ps := scoreChars (num_home_goals : ℤ) (num_away_goals : ℤ)
  if 0 < total_prob then
    { home_probability := home_prob / total_prob,
      draw_probability := draw_prob / total_prob,
      away_probability := away_prob / total_prob, predicted_score := ps }
  else
    { home_probability := home_prob, draw_probability := draw_prob,
      away_probability := away_prob, predicted_score := ps }

/-- The uniform initializer weights of `MixtureOfExpertsModel.__init__`
(`models/mixture_expert.py`), keyed by model name in insertion order. -/
def moeInitWeights : List (String × ℚ) :=
  [("poisson", 1/4), ("negative_binomial", 1/4), ("hawkes", 1/4), ("hmm", 1/4)]

/-- One accumulator loop of `MixtureOfExpertsModel.predict`: walk the
weight map and add `weight * get(prediction)` whenever the model name is
present in the prediction map (absent names contribute nothing). -/
def MixtureOfExpertsModel.weighted_sum (weights : List (String × ℚ))
    (predictions : List (String × OutcomePrediction))
    (get : OutcomePrediction → ℚ) : ℚ :=
  weights.foldl (fun acc mw =>
    match predictions.lookup mw.1 with
    | some pred => acc + mw.2 * get pred
    | none => acc) 0

/-- `MixtureOfExpertsModel._combine_scores` (`models/mixture_expert.py`,
lines 87-111): split each score string at the dash; with exactly two
fragments, `int(parts[0])` is appended to the home list and - only when
that parse succeeded - `int(parts[1])` to the away list (a `ValueError`
on the second parse still leaves the first appended, exactly as in the
Python `try` block).  When both lists are non-empty the result is the
rounded means, else "1-1". -/
def MixtureOfExpertsModel.combine_scores
    (preds : List OutcomePrediction) : List Char :=
  let home_scores := preds.filterMap (fun p =>
    match splitDash p.predicted_score with
    | [a, _b] => parseIntChars a
    | _ => none)
  let away_scores := preds.filterMap (fun p =>
    match splitDash p.predicted_score with
    | [a, b] =>
        match parseIntChars a with
        | some _ => parseIntChars b
        | none => none
    | _ => none)
  if home_scores.isEmpty ∨ away_scores.isEmpty then ['1', '-', '1']
  else scoreChars (pyRound (meanZ home_scores)) (pyRound (meanZ away_scores))

/-- `MixtureOfExpertsModel.predict` (`models/mixture_expert.py`, lines
35-85): weighted probability sums over the weight map, the
`if total > 0` renormalization, the combined score string, and the mean
confidence (an absent `confidence` key falls back to the maximum of the
three probabilities; an empty prediction map falls back to 0.5). -/
def MixtureOfExpertsModel.predict (weights : List (String × ℚ))
    (predictions : List (String × OutcomePrediction)) : OutcomePrediction :=
  let weighted_home :=
    MixtureOfExpertsModel.weighted_sum weights predictions (·.home_probability)
  let weighted_draw :=
    MixtureOfExpertsModel.weighted_sum weights predictions (·.draw_probability)
  let weighted_away :=
    MixtureOfExpertsModel.weighted_sum weights predictions (·.away_probability)
  let total := weighted_home + weighted_draw + weighted_away
  let ps := MixtureOfExpertsModel.combine_scores (predictions.map Prod.snd)
  let confidences := predictions.map (fun np =>
    match np.2.confidence with
    | some c => c
    | none => max np.2.home_probability (max np.2.draw_probability np.2.away_probability))
  let confidence := if confidences.isEmpty then 1/2 else meanQ confidences
  if 0 < total then
    { home_probability := weighted_home / total,
      draw_probability := weighted_draw / total,
      away_probability := weighted_away / total,
      predicted_score := ps, confidence := some confidence }
  else
    { home_probability := weighted_home, draw_probability := weighted_draw,
      away_probability := weighted_away,
      predicted_score := ps, confidence := some confidence }

/-- One joined prediction/result row as fetched by the backtester query
(`backtest/backtest.py`): columns 0-2 are the stored probabilities,
column 3 the stored score string, columns 4-5 the actual final score
(both non-NULL by the query filter). -/
structure BacktestRow where
  home_probability : ℚ
  draw_probability : ℚ
  away_probability : ℚ
  predicted_score : List Char := ['1', '-', '1']
  home_score : ℕ
  away_score : ℕ
deriving DecidableEq, Repr

/-- The metrics dictionary of `Backtester._backtest_single_model`; the
`model` key is only present on the non-empty branch. -/
structure BacktestMetrics where
  accuracy : ℚ
  log_loss : ℚ
  brier_score : ℚ
  count : ℕ
  model : Option String
deriving DecidableEq, Repr

/-- The actual outcome bucket of a row (`home_score > away_score` etc.). -/
def Backtester.actual_outcome (r : BacktestRow) : Outcome :=
  if r.away_score < r.home_score then Outcome.home
  else if r.home_score = r.away_score then Outcome.draw
  else Outcome.away

/-- The Python `max(probs, key=probs.get)` over the dict
mapping home to hp, draw to dp, away to ap: `max` scans in insertion order
and replaces the current best only on a strictly greater key, so ties
keep the earlier name. -/
def Backtester.predicted_outcome (hp dp ap : ℚ) : Outcome :=
  let b1 := if hp < dp then Outcome.draw else Outcome.home
  let v1 := if hp < dp then dp else hp
  if v1 < ap then Outcome.away else b1

/-- `Backtester._calculate_accuracy` (`backtest/backtest.py`, lines
81-107): fraction of rows whose predicted bucket equals the actual
bucket. -/
def Backtester.calculate_accuracy (rows : List BacktestRow) : ℚ :=
  if rows.isEmpty then 0
  else
    ((rows.countP (fun r =>
      Backtester.actual_outcome r ==
        Backtester.predicted_outcome r.home_probability r.draw_probability
          r.away_probability) : ℕ) : ℚ) / rows.length

/-- `Backtester._calculate_log_loss`: mean of `-log p_actual` with the
probability clamped into `[1e-15, 1 - 1e-15]`; `log` stands for the real
natural logarithm and is quantified in the theorems. -/
def Backtester.calculate_log_loss (log : ℚ → ℚ) (rows : List BacktestRow) : ℚ :=
  if rows.isEmpty then 0
  else
    (rows.map (fun r =>
      let actual_prob :=
        (match Backtester.actual_outcome r with
        | Outcome.home => r.home_probability
        | Outcome.draw => r.draw_probability
        | Outcome.away => r.away_probability)
      let clamped := max (min actual_prob (1 - 1/10^15)) (1/10^15)
      Neg.neg (log clamped))).sum / rows.length

/-- `Backtester._calculate_brier_score`: mean over rows of
`np.mean((predicted - onehot)^2)`, i.e. one third of the squared
distance between the probability triple and the one-hot actual vector. -/
def Backtester.calculate_brier_score (rows : List BacktestRow) : ℚ :=
  if rows.isEmpty then 0
  else
    (rows.map (fun r =>
      let onehot : ℚ × ℚ × ℚ :=
        match Backtester.actual_outcome r with
        | Outcome.home => (1, 0, 0)
        | Outcome.draw => (0, 1, 0)
        | Outcome.away => (0, 0, 1)
      ((r.home_probability - onehot.1)^2 + (r.draw_probability - onehot.2.1)^2 +
        (r.away_probability - onehot.2.2)^2) / 3)).sum / rows.length

/-- `Backtester._backtest_single_model` (`backtest/backtest.py`, lines
36-79) on the joined rows its query produced: the empty set short-
circuits to the all-zero metrics (without the `model` key); otherwise
the three metrics and the row count are computed. -/
def Backtester.backtest_single_model (log : ℚ → ℚ) (model_type : String)
    (rows : List BacktestRow) : BacktestMetrics :=
  if rows.isEmpty then
    { accuracy := 0, log_loss := 0, brier_score := 0, count := 0, model := none }
  else
    { accuracy := Backtester.calculate_accuracy rows,
      log_loss := Backtester.calculate_log_loss log rows,
      brier_score := Backtester.calculate_brier_score rows,
      count := rows.length, model := some model_type }

/-- One joined row of the calibration query of
`Backtester.get_calibration_data`: the stored home-win probability and
the actual final score. -/
structure CalibRow where
  home_probability : ℚ
  home_score : ℕ
  away_score : ℕ
deriving DecidableEq, Repr

/-- `np.linspace(0, 1, bins + 1)` as exact rationals: edge `i` is
`i / bins`. -/
def Backtester.bin_edges (bins i : ℕ) : ℚ := (i : ℚ) / (bins : ℚ)

/-- The bin membership test of `Backtester.get_calibration_data`
(`backtest/backtest.py`, line 188): the inclusive two-sided comparison
`bin_edges[i] <= p <= bin_edges[i+1]`. -/
def Backtester.in_bin (bins i : ℕ) (p : ℚ) : Bool :=
  decide (Backtester.bin_edges bins i ≤ p ∧ p ≤ Backtester.bin_edges bins (i + 1))

/-- The rows falling into calibration bin `i`. -/
def Backtester.bin_rows (bins : ℕ) (rows : List CalibRow) (i : ℕ) : List CalibRow :=
  rows.filter (fun r => Backtester.in_bin bins i r.home_probability)

/-- `Backtester.get_calibration_data` (`backtest/backtest.py`, lines
165-204) on the joined rows: per non-empty bin, the empirical home-win
rate and mean stated probability, plus the edge list; returned as
(confidence list, accuracy list, bin edges). -/
def Backtester.get_calibration_data (rows : List CalibRow) (bins : ℕ) :
    List ℚ × List ℚ × List ℚ :=
  let idx := (List.range bins).filter (fun i => !(Backtester.bin_rows bins rows i).isEmpty)
  (idx.map (fun i => meanQ ((Backtester.bin_rows bins rows i).map (·.home_probability))),
   idx.map (fun i =>
     ((Backtester.bin_rows bins rows i).countP
         (fun r => r.away_score < r.home_score) : ℚ) /
       ((Backtester.bin_rows bins rows i).length : ℚ)),
   (List.range (bins + 1)).map (fun i => Backtester.bin_edges bins i))

/-- The per-team aggregate stats row consumed by
`PredictionPipeline._build_features` through `.get` with defaults; a
missing key (or a missing stats row altogether) is a `none` field. -/
structure TeamStats where
  form_rating : Option ℚ := none
  goals_for : Option ℤ := none
  goals_against : Option ℤ := none
deriving DecidableEq, Repr

/-- `PredictionPipeline._build_features` (`prediction/predict.py`, lines
132-174): neutral defaults for missing stats, attack strength
`1 + gf/30` when `gf > 0`, defense strength `1 - ga/30` when `ga > 0`
(no lower bound), fixed home advantage 1.05, and sentiment either from
the news source (passed in here as the two scalars it returns) or the
neutral 0.5 when news lookup is disabled. -/
def PredictionPipeline.build_features (home_stats away_stats : TeamStats)
    (home_news_sentiment away_news_sentiment : ℚ) (use_news : Bool) : Features :=
  let home_gf := home_stats.goals_for.getD 0
  let home_ga := home_stats.goals_against.getD 1
  let away_gf := away_stats.goals_for.getD 0
  let away_ga := away_stats.goals_against.getD 1
  { home_form := home_stats.form_rating.getD (1/2),
    away_form := away_stats.form_rating.getD (1/2),
    home_attack_strength := if 0 < home_gf then 1 + (home_gf : ℚ) / 30 else 1,
    home_defense_strength := if 0 < home_ga then 1 - (home_ga : ℚ) / 30 else 1,
    away_attack_strength := if 0 < away_gf then 1 + (away_gf : ℚ) / 30 else 1,
    away_defense_strength := if 0 < away_ga then 1 - (away_ga : ℚ) / 30 else 1,
    home_advantage := 21/20,
    home_news_sentiment := if use_news then home_news_sentiment else 1/2,
    away_news_sentiment := if use_news then away_news_sentiment else 1/2 }

example : natChars 100 = ['1', '0', '0'] := by decide
example : scoreChars 2 1 = ['2', '-', '1'] := by decide
example : splitDash ['2', '-', '1'] = [['2'], ['1']] := by decide
example : parseIntChars ['2'] = some 2 := by decide
example : pyRound (5/2) = 2 ∧ pyRound (3/2) = 2 ∧ pyRound (9/5) = 2 := by
  norm_num [pyRound]
example : varQ [0, 5] = 25/4 := by norm_num [varQ, meanQ]

/-- The argmax over (home, draw, away) with ties resolved in that
selection order, exactly as the spec words the tie rule for the
backtester. -/
def argmaxHomeDrawAway (hp dp ap : ℚ) : Outcome :=
  if dp ≤ hp then (if ap ≤ hp then Outcome.home else Outcome.away)
  else (if ap ≤ dp then Outcome.draw else Outcome.away)

lemma predicted_outcome_eq_argmax (hp dp ap : ℚ) :
    Backtester.predicted_outcome hp dp ap = argmaxHomeDrawAway hp dp ap := by
  simp only [Backtester.predicted_outcome, argmaxHomeDrawAway]
  split_ifs <;> first | rfl | (exfalso; linarith)

lemma pyRound_intCast (z : ℤ) : pyRound (z : ℚ) = z := by
  simp [pyRound]

lemma lookup_mem_snd {l : List (String × OutcomePrediction)} {k : String}
    {v : OutcomePrediction} (h : l.lookup k = some v) : v ∈ l.map Prod.snd := by
  induction l with
  | nil => simp [List.lookup] at h
  | cons hd t ih =>
      rw [List.lookup] at h
      split at h
      · injection h with h
        simp [← h]
      · simp only [List.map_cons, List.mem_cons]
        exact Or.inr (ih h)

lemma weighted_sum_nonneg (weights : List (String × ℚ))
    (preds : List (String × OutcomePrediction)) (get : OutcomePrediction → ℚ)
    (hw : ∀ w ∈ weights, 0 ≤ w.2)
    (hp : ∀ v ∈ preds.map Prod.snd, 0 ≤ get v) :
    0 ≤ MixtureOfExpertsModel.weighted_sum weights preds get := by
  unfold MixtureOfExpertsModel.weighted_sum
  have aux : ∀ (ws : List (String × ℚ)) (a : ℚ), 0 ≤ a →
      (∀ w ∈ ws, 0 ≤ w.2) →
      0 ≤ ws.foldl (fun acc mw =>
        match preds.lookup mw.1 with
        | some pred => acc + mw.2 * get pred
        | none => acc) a := by
    intro ws
    induction ws with
    | nil => intro a ha _; simpa using ha
    | cons w t ih =>
        intro a ha hws
        rw [List.foldl_cons]
        rcases heq : preds.lookup w.1 with _ | v
        · simp only [heq]
          exact ih a ha (fun x hx => hws x (List.mem_cons_of_mem w hx))
        · simp only [heq]
          refine ih _ ?_ (fun x hx => hws x (List.mem_cons_of_mem w hx))
          have h1 : 0 ≤ w.2 := hws w (List.mem_cons_self w t)
          have h2 : 0 ≤ get v := hp v (lookup_mem_snd heq)
          positivity
  exact aux weights 0 le_rfl hw

lemma poissonPmfVal_nonneg (E : ℚ → ℚ) (lam : ℚ) (k : ℕ)
    (hE : 0 ≤ E lam) (hl : 0 ≤ lam) : 0 ≤ poissonPmfVal E lam k := by
  unfold poissonPmfVal
  have : (0 : ℚ) ≤ (Nat.factorial k : ℚ) := by positivity
  exact div_nonneg (mul_nonneg hE (pow_nonneg hl k)) this

lemma double_sum_if_nonneg (c : ℕ → ℕ → Prop) [∀ i j, Decidable (c i j)]
    (hp ap : ℕ → ℚ) (n : ℕ) (h1 : ∀ k, 0 ≤ hp k) (h2 : ∀ k, 0 ≤ ap k) :
    0 ≤ ∑ i in Finset.range n, ∑ j in Finset.range n,
      if c i j then hp i * ap j else 0 := by
  apply Finset.sum_nonneg
  intro i _
  apply Finset.sum_nonneg
  intro j _
  by_cases h : c i j
  · rw [if_pos h]
    exact mul_nonneg (h1 i) (h2 j)
  · rw [if_neg h]

lemma outcomeBucketsSum_nonneg (hp ap : ℕ → ℚ) (n : ℕ)
    (h1 : ∀ k, 0 ≤ hp k) (h2 : ∀ k, 0 ≤ ap k) :
    0 ≤ (outcomeBucketsSum hp ap n).1 ∧ 0 ≤ (outcomeBucketsSum hp ap n).2.1 ∧
      0 ≤ (outcomeBucketsSum hp ap n).2.2 :=
  ⟨double_sum_if_nonneg _ hp ap n h1 h2, double_sum_if_nonneg _ hp ap n h1 h2,
   double_sum_if_nonneg _ hp ap n h1 h2⟩

lemma outcomeBucketsSum_total (hp ap : ℕ → ℚ) (n : ℕ) :
    (outcomeBucketsSum hp ap n).1 + (outcomeBucketsSum hp ap n).2.1 +
      (outcomeBucketsSum hp ap n).2.2 =
      (∑ i in Finset.range n, hp i) * (∑ j in Finset.range n, ap j) := by
  unfold outcomeBucketsSum
  rw [Finset.sum_mul_sum]
  simp only [← Finset.sum_add_distrib]
  refine Finset.sum_congr rfl (fun i _ => Finset.sum_congr rfl (fun j _ => ?_))
  rcases lt_trichotomy j i with h | h | h
  · rw [if_pos h, if_neg (by omega), if_neg (by omega)]; ring
  · rw [if_neg (by omega), if_pos (by omega), if_neg (by omega)]; ring
  · rw [if_neg (by omega), if_neg (by omega), if_pos h]; ring

lemma sum_poissonPmfVal_pos (E : ℚ → ℚ) (lam : ℚ) (n : ℕ)
    (hE : 0 < E lam) (hl : 0 ≤ lam) (hn : 0 < n) :
    0 < ∑ k in Finset.range n, poissonPmfVal E lam k := by
  have h0 : poissonPmfVal E lam 0 = E lam := by
    simp [poissonPmfVal, Nat.factorial]
  have hle : poissonPmfVal E lam 0 ≤ ∑ k in Finset.range n, poissonPmfVal E lam k :=
    Finset.single_le_sum
      (fun k _ => poissonPmfVal_nonneg E lam k hE.le hl)
      (Finset.mem_range.mpr hn)
  calc (0 : ℚ) < E lam := hE
    _ = poissonPmfVal E lam 0 := h0.symm
    _ ≤ _ := hle

lemma pyFold_inner (hp ap : ℕ → Option ℚ) (hv av : ℕ → ℚ)
    (hhp : ∀ k, hp k = some (hv k)) (hap : ∀ k, ap k = some (av k))
    (i : ℕ) (n : ℕ) : ∀ a b c : ℚ,
    (List.range n).foldl (fun acc2 j =>
      let prob := pyMul (hp i) (ap j)
      if j < i then (pyAdd acc2.1 prob, acc2.2.1, acc2.2.2)
      else if i = j then (acc2.1, pyAdd acc2.2.1 prob, acc2.2.2)
      else (acc2.1, acc2.2.1, pyAdd acc2.2.2 prob))
      (some a, some b, some c) =
    (some (a + ∑ j in Finset.range n, if j < i then hv i * av j else 0),
     some (b + ∑ j in Finset.range n, if i = j then hv i * av j else 0),
     some (c + ∑ j in Finset.range n, if i < j then hv i * av j else 0)) := by
  induction n with
  | zero => intro a b c; simp
  | succ n ih =>
      intro a b c
      rw [List.range_succ, List.foldl_append, ih a b c]
      simp only [List.foldl_cons, List.foldl_nil, Finset.sum_range_succ,
        hhp, hap, pyMul, pyAdd]
      rcases lt_trichotomy (n : ℕ) i with h | h | h
      · have h1 : ¬ i = n := by omega
        have h2 : ¬ i < n := by omega
        rw [if_pos h, if_pos h, if_neg h1, if_neg h2]
        simp only [Prod.mk.injEq, Option.some.injEq]
        exact ⟨by ring, by ring, by ring⟩
      · have hlt : ¬ n < i := by omega
        have hlt2 : ¬ i < n := by omega
        rw [if_neg hlt, if_neg hlt, if_pos h.symm, if_pos h.symm, if_neg hlt2]
        simp only [Prod.mk.injEq, Option.some.injEq]
        exact ⟨by ring, by ring, by ring⟩
      · have hlt : ¬ n < i := by omega
        have h1 : ¬ i = n := by omega
        rw [if_neg hlt, if_neg hlt, if_neg h1, if_neg h1, if_pos h]
        simp only [Prod.mk.injEq, Option.some.injEq]
        exact ⟨by ring, by ring, by ring⟩

lemma outcomeBuckets_some (hp ap : ℕ → Option ℚ) (hv av : ℕ → ℚ)
    (hhp : ∀ k, hp k = some (hv k)) (hap : ∀ k, ap k = some (av k)) (n : ℕ) :
    outcomeBuckets hp ap n =
      (some (outcomeBucketsSum hv av n).1, some (outcomeBucketsSum hv av n).2.1,
       some (outcomeBucketsSum hv av n).2.2) := by
  unfold outcomeBuckets outcomeBucketsSum
  have aux : ∀ (m : ℕ) (a b c : ℚ),
      (List.range m).foldl (fun acc i =>
        (List.range n).foldl (fun acc2 j =>
          let prob := pyMul (hp i) (ap j)
          if j < i then (pyAdd acc2.1 prob, acc2.2.1, acc2.2.2)
          else if i = j then (acc2.1, pyAdd acc2.2.1 prob, acc2.2.2)
          else (acc2.1, acc2.2.1, pyAdd acc2.2.2 prob)) acc)
        (some a, some b, some c) =
      (some (a + ∑ i in Finset.range m, ∑ j in Finset.range n,
        if j < i then hv i * av j else 0),
       some (b + ∑ i in Finset.range m, ∑ j in Finset.range n,
        if i = j then hv i * av j else 0),
       some (c + ∑ i in Finset.range m, ∑ j in Finset.range n,
        if i < j then hv i * av j else 0)) := by
    intro m
    induction m with
    | zero => intro a b c; simp
    | succ m ihm =>
        intro a b c
        rw [List.range_succ, List.foldl_append, ihm a b c]
        simp only [List.foldl_cons, List.foldl_nil]
        rw [pyFold_inner hp ap hv av hhp hap m n]
        simp only [Prod.mk.injEq, Option.some.injEq, Finset.sum_range_succ]
        exact ⟨by ring, by ring, by ring⟩
  have h0 := aux n 0 0 0
  simpa using h0

lemma hmm_state_cases (q : ℚ) :
    HMMFormModel.get_state_from_form q = 0 ∨ HMMFormModel.get_state_from_form q = 1 ∨
      HMMFormModel.get_state_from_form q = 2 := by
  unfold HMMFormModel.get_state_from_form
  split_ifs <;> simp

/-- C8: when no qualifying prediction/result rows exist for a model in
the requested window, the backtester returns exactly accuracy 0.0,
log_loss 0.0, brier_score 0.0 and count 0 (and no model key), for every
logarithm oracle and every model name, rather than failing. -/
theorem claim8_theorem (log : ℚ → ℚ) (model_type : String) :
    Backtester.backtest_single_model log model_type [] =
      { accuracy := 0, log_loss := 0, brier_score := 0, count := 0, model := none } :=
  rfl

/-- C9: the calibration bin membership test is the inclusive range
`bin_edges[i] <= home_probability <= bin_edges[i+1]`, so a record whose
home-win probability sits exactly on an interior edge `k / bins` is kept
by the filters of both adjacent bins: the bins overlap instead of
partitioning [0, 1]. -/
theorem claim9_theorem (bins k : ℕ) (rows : List CalibRow) (r : CalibRow)
    (hk0 : 0 < k) (hkb : k < bins) (hr : r ∈ rows)
    (hp : r.home_probability = (k : ℚ) / (bins : ℚ)) :
    r ∈ Backtester.bin_rows bins rows (k - 1) ∧
      r ∈ Backtester.bin_rows bins rows k := by
  have hbn : 0 < bins := by omega
  have hb : (0 : ℚ) < (bins : ℚ) := by exact_mod_cast hbn
  have hcast : ((k - 1 : ℕ) : ℚ) = (k : ℚ) - 1 := by
    have h1 : (1 : ℕ) ≤ k := hk0
    push_cast [h1]
    ring
  have hsucc : k - 1 + 1 = k := by omega
  constructor
  · refine List.mem_filter.mpr ⟨hr, ?_⟩
    simp only [Backtester.in_bin, Backtester.bin_edges, decide_eq_true_eq]
    refine ⟨?_, ?_⟩
    · rw [hp, hcast]
      gcongr
      linarith
    · rw [hp, hsucc]
  · refine List.mem_filter.mpr ⟨hr, ?_⟩
    simp only [Backtester.in_bin, Backtester.bin_edges, decide_eq_true_eq]
    refine ⟨le_of_eq hp.symm, ?_⟩
    · rw [hp]
      gcongr
      · linarith

/-- Witness for C9: with 10 bins, a row whose home-win probability is
exactly the interior edge 5/10 lands in both bin 4 and bin 5. -/
theorem claim9_witness :
    (⟨1/2, 1, 0⟩ : CalibRow) ∈
        Backtester.bin_rows 10 [⟨1/2, 1, 0⟩] (5 - 1) ∧
      (⟨1/2, 1, 0⟩ : CalibRow) ∈ Backtester.bin_rows 10 [⟨1/2, 1, 0⟩] 5 :=
  claim9_theorem 10 5 [⟨1/2, 1, 0⟩] ⟨1/2, 1, 0⟩ (by norm_num) (by norm_num)
    (List.mem_singleton.mpr rfl) (by norm_num)

/-- C5: if both Hawkes base intensities are 0, `HawkesModel.predict`
falls back to home = 0.45 and away = 0.45 with the residual draw 0.1,
and the renormalization leaves the triple summing to 1, for every
simulation oracle and match length. -/
theorem claim5_theorem (runH runA : ℕ → ℕ) (m : HawkesModel) (match_length : ℚ)
    (h1 : m.lambda0_home = 0) (h2 : m.lambda0_away = 0) :
    (HawkesModel.predict runH runA m match_length).home_probability = 9/20 ∧
      (HawkesModel.predict runH runA m match_length).draw_probability = 1/10 ∧
      (HawkesModel.predict runH runA m match_length).away_probability = 9/20 ∧
      (HawkesModel.predict runH runA m match_length).home_probability +
          (HawkesModel.predict runH runA m match_length).draw_probability +
          (HawkesModel.predict runH runA m match_length).away_probability = 1 := by
  simp only [HawkesModel.predict, HawkesModel.simulate_goals, h1, h2]
  norm_num

/-- Witness for C5 at a concrete zero-intensity state and oracle. -/
theorem claim5_witness :
    (HawkesModel.predict (fun _ => 1) (fun _ => 1)
        { lambda0_home := 0, lambda0_away := 0 } 90).home_probability = 9/20 ∧
      (HawkesModel.predict (fun _ => 1) (fun _ => 1)
        { lambda0_home := 0, lambda0_away := 0 } 90).draw_probability = 1/10 ∧
      (HawkesModel.predict (fun _ => 1) (fun _ => 1)
        { lambda0_home := 0, lambda0_away := 0 } 90).away_probability = 9/20 ∧
      (HawkesModel.predict (fun _ => 1) (fun _ => 1)
          { lambda0_home := 0, lambda0_away := 0 } 90).home_probability +
        (HawkesModel.predict (fun _ => 1) (fun _ => 1)
          { lambda0_home := 0, lambda0_away := 0 } 90).draw_probability +
        (HawkesModel.predict (fun _ => 1) (fun _ => 1)
          { lambda0_home := 0, lambda0_away := 0 } 90).away_probability = 1 :=
  claim5_theorem (fun _ => 1) (fun _ => 1)
    { lambda0_home := 0, lambda0_away := 0 } 90 rfl rfl

/-- C2 (code evaluation): `HawkesModel.predict` binds each "goal count"
to the length of the array returned by `_simulate_goals`, which holds
one count per simulation run, so the score string is always "100-100"
- here shown with an oracle whose every run scores 2 home and 1 away
goals, where the scoreline of any single simulated match would be
"2-1". -/
theorem claim2_theorem :
    (HawkesModel.predict (fun _ => 2) (fun _ => 1) {} 90).predicted_score =
        scoreChars 100 100 ∧
      HawkesModel.simulate_goals (fun _ => 2) 100 = List.replicate 100 2 ∧
      scoreChars 100 100 ≠ scoreChars 2 1 := by
  refine ⟨?_, ?_, by decide⟩
  · simp only [HawkesModel.predict, HawkesModel.simulate_goals]
    norm_num
  · simp [HawkesModel.simulate_goals, List.map_const]

/-- C10: for every team-stats record with `goals_against > 0` the
feature builder returns defense strength `1 - goals_against / 30`, which
is zero or negative once 30 or more goals were conceded (no positive
floor), and a strictly negative factor propagates multiplicatively into
the fitted Poisson goal rate, making it negative. -/
theorem claim10_theorem (home_stats away_stats : TeamStats)
    (hn an : ℚ) (use_news : Bool) (ga : ℤ)
    (hga : away_stats.goals_against = some ga) (hpos : 0 < ga) :
    (PredictionPipeline.build_features home_stats away_stats hn an
        use_news).away_defense_strength = 1 - (ga : ℚ) / 30 ∧
      (30 ≤ ga →
        (PredictionPipeline.build_features home_stats away_stats hn an
          use_news).away_defense_strength ≤ 0) ∧
      (∀ (m : PoissonModel) (hg ag : List ℚ), 30 < ga →
        (PoissonModel.fit m hg ag
            (some (PredictionPipeline.build_features home_stats away_stats hn an
              use_news))).home_lambda < 0) := by
  have hdef : (PredictionPipeline.build_features home_stats away_stats hn an
      use_news).away_defense_strength = 1 - (ga : ℚ) / 30 := by
    simp only [PredictionPipeline.build_features, hga, Option.getD_some]
    rw [if_pos hpos]
  refine ⟨hdef, ?_, ?_⟩
  · intro h30
    rw [hdef]
    have : (30 : ℚ) ≤ (ga : ℚ) := by exact_mod_cast h30
    linarith
  · intro m hg ag h30
    have hneg : (PredictionPipeline.build_features home_stats away_stats hn an
        use_news).away_defense_strength < 0 := by
      rw [hdef]
      have : (30 : ℚ) < (ga : ℚ) := by exact_mod_cast h30
      linarith
    have hatk : 0 < (PredictionPipeline.build_features home_stats away_stats hn an
        use_news).home_attack_strength := by
      simp only [PredictionPipeline.build_features]
      split
      · rename_i hgf
        have : (0 : ℚ) < ((home_stats.goals_for.getD 0 : ℤ) : ℚ) := by
          exact_mod_cast hgf
        positivity
      · norm_num
    have hbase : 0 < (if 0 < hg.length then max (meanQ hg) (1/10) else 3/2) := by
      split
      · exact lt_of_lt_of_le (by norm_num) (le_max_right _ _)
      · norm_num
    simp only [PoissonModel.fit]
    exact mul_neg_of_pos_of_neg hbase (mul_neg_of_pos_of_neg hatk hneg)

/-- Witness for C10: a side that conceded 45 goals gets defense strength
-0.5, and fitting the Poisson model with those features yields a
negative home rate. -/
theorem claim10_witness :
    (PredictionPipeline.build_features { goals_for := some 30 }
        { goals_against := some 45 } 0 0 true).away_defense_strength =
        1 - (45 : ℚ) / 30 ∧
      (PoissonModel.fit {} [] []
          (some (PredictionPipeline.build_features { goals_for := some 30 }
            { goals_against := some 45 } 0 0 true))).home_lambda < 0 :=
  ⟨(claim10_theorem { goals_for := some 30 } { goals_against := some 45 } 0 0
      true 45 rfl (by norm_num)).1,
   (claim10_theorem { goals_for := some 30 } { goals_against := some 45 } 0 0
      true 45 rfl (by norm_num)).2.2 {} [] [] (by norm_num)⟩

/-- C4 (amended): when a side has at least two recorded goals the
Negative-Binomial fit sets the dispersion to
`max (mean^2 / (var - mean)) 0.1` when the variance exceeds the mean and
to 1.0 otherwise; with fewer than two entries it leaves the dispersion
of that side unchanged (so it equals 1.0 only on a freshly initialized
model). -/
theorem claim4_theorem (m : NegativeBinomialModel) (hg ag : List ℚ)
    (f : Option Features) :
    (2 ≤ hg.length →
      (m.fit hg ag f).home_alpha =
        (if meanQ hg < varQ hg then
          max ((meanQ hg)^2 / (varQ hg - meanQ hg)) (1/10) else 1)) ∧
    (hg.length < 2 → (m.fit hg ag f).home_alpha = m.home_alpha) ∧
    (2 ≤ ag.length →
      (m.fit hg ag f).away_alpha =
        (if meanQ ag < varQ ag then
          max ((meanQ ag)^2 / (varQ ag - meanQ ag)) (1/10) else 1)) ∧
    (ag.length < 2 → (m.fit hg ag f).away_alpha = m.away_alpha) := by
  simp only [NegativeBinomialModel.fit]
  rcases f with _ | fv <;>
    refine ⟨fun hlen => ?_, fun hlen => ?_, fun hlen => ?_, fun hlen => ?_⟩ <;>
    · split_ifs <;> simp_all <;> omega

/-- Witness for C4 at a two-entry home history and a one-entry away
history on a fresh model. -/
theorem claim4_witness :
    ((NegativeBinomialModel.fit {} [0, 5] [2] none).home_alpha =
      (if meanQ [0, 5] < varQ [0, 5] then
        max ((meanQ [0, 5])^2 / (varQ [0, 5] - meanQ [0, 5])) (1/10) else 1)) ∧
    ((NegativeBinomialModel.fit {} [0, 5] [2] none).away_alpha =
      ({} : NegativeBinomialModel).away_alpha) :=
  ⟨(claim4_theorem {} [0, 5] [2] none).1 (by norm_num),
   (claim4_theorem {} [0, 5] [2] none).2.2.2 (by norm_num)⟩

/-- Counterexample for C4 as stated: refitting a model (whose previous
history had variance above the mean) on a one-entry Goal History leaves
the previously fitted dispersion 5/3 in place, although the new history
has variance 0, not exceeding its mean, where the claim prescribes 1.0. -/
theorem claim4_counterexample :
    (NegativeBinomialModel.fit (NegativeBinomialModel.fit {} [0, 5] [0, 5] none)
        [2] [2] none).home_alpha = 5/3 ∧
      ¬ meanQ [2] < varQ [2] ∧ (5/3 : ℚ) ≠ 1 := by
  norm_num [NegativeBinomialModel.fit, meanQ, varQ]


/-- C7: for every non-empty row list, the backtester accuracy equals the
fraction of rows on which the argmax over the three predicted
probabilities - ties resolved in the selection order home, draw, away of
the underlying dict - picks the bucket of the actual final score. -/
theorem claim7_theorem (rows : List BacktestRow) (hne : rows ≠ []) :
    Backtester.calculate_accuracy rows =
      ((rows.countP (fun r =>
        Backtester.actual_outcome r ==
          argmaxHomeDrawAway r.home_probability r.draw_probability
            r.away_probability) : ℕ) : ℚ) / (rows.length : ℚ) := by
  unfold Backtester.calculate_accuracy
  rw [if_neg (by simpa using hne)]
  simp only [predicted_outcome_eq_argmax]

/-- Witness for C7: two rows, one predicted correctly (probabilities
favor home, home won) and one with a three-way probability tie (argmax
resolves to home, the match was drawn), give accuracy 1/2. -/
theorem claim7_witness :
    Backtester.calculate_accuracy
        [{ home_probability := 1/2, draw_probability := 3/10,
           away_probability := 1/5, home_score := 2, away_score := 1 },
         { home_probability := 1/3, draw_probability := 1/3,
           away_probability := 1/3, home_score := 1, away_score := 1 }] =
      (([{ home_probability := 1/2, draw_probability := 3/10,
           away_probability := 1/5, home_score := 2, away_score := 1 },
         { home_probability := 1/3, draw_probability := 1/3,
           away_probability := 1/3, home_score := 1, away_score := 1 }] :
          List BacktestRow).countP (fun r =>
        Backtester.actual_outcome r ==
          argmaxHomeDrawAway r.home_probability r.draw_probability
            r.away_probability) : ℚ) / 2 :=
  claim7_theorem _ (by simp)

/-- C3 (code evaluation): at the failing input where both sides are in
good form (form 0.7, state 0), the code computes
`away_probability = away_loss_emission * (1 - home_win_emission)
= 0.05 * 0.2 = 0.01`, not the claimed symmetric
`away_win_emission * (1 - home_loss_emission)` (which, clamped and
renormalized, gives 0.5); worsening the away form to 0.2 (state 2)
raises the away win probability to 0.12, inverting the documented
meaning of the emission table. -/
theorem claim3_theorem :
    OutcomePrediction.away_probability
        (HMMFormModel.predict {} (some { home_form := 7/10, away_form := 7/10 })) =
        1/100 ∧
      OutcomePrediction.away_probability
        (HMMFormModel.predict {} (some { home_form := 7/10, away_form := 1/5 })) =
        3/25 ∧
      (1 : ℚ)/100 < 3/25 := by
  refine ⟨?_, ?_, by norm_num⟩ <;>
    norm_num [HMMFormModel.predict, HMMFormModel.get_state_from_form,
      HMMFormModel.emission_probs]


lemma normalized_triple (h d a : ℚ) (hh : 0 ≤ h) (hd : 0 ≤ d) (ha : 0 ≤ a)
    (hpos : 0 < h + d + a) :
    0 ≤ h / (h + d + a) ∧ 0 ≤ d / (h + d + a) ∧ 0 ≤ a / (h + d + a) ∧
      h / (h + d + a) + d / (h + d + a) + a / (h + d + a) = 1 :=
  ⟨div_nonneg hh hpos.le, div_nonneg hd hpos.le, div_nonneg ha hpos.le, by
    field_simp⟩

/-- C1 (amended): the three probabilities returned by
`PoissonModel.predict`, `HMMFormModel.predict` and
`MixtureOfExpertsModel.predict` are nonnegative numbers summing to
exactly 1 (hence within 1e-6) provided the Poisson rates after feature
adjustment pass the scipy argcheck, i.e. are nonnegative (with the exp
factor positive there, as the real exponential is), respectively the
combiner receives nonnegative weights and probabilities with a positive
weighted total; the form model needs no proviso at all.  Without those
provisos the property fails, see the counterexample. -/
theorem claim1_theorem :
    (∀ (E : ℚ → ℚ) (m : PoissonModel) (f : Option Features),
      0 ≤ m.adjusted_home f → 0 ≤ m.adjusted_away f →
      0 < E (m.adjusted_home f) → 0 < E (m.adjusted_away f) →
      0 < m.max_score →
      ∃ h d a : ℚ,
       (PoissonModel.predict E m f).home_probability = some h ∧
       (PoissonModel.predict E m f).draw_probability = some d ∧
       (PoissonModel.predict E m f).away_probability = some a ∧
       0 ≤ h ∧ 0 ≤ d ∧ 0 ≤ a ∧ h + d + a = 1) ∧
    (∀ (m : HMMFormModel) (f : Option Features),
      0 ≤ (HMMFormModel.predict m f).home_probability ∧
      0 ≤ (HMMFormModel.predict m f).draw_probability ∧
      0 ≤ (HMMFormModel.predict m f).away_probability ∧
      (HMMFormModel.predict m f).home_probability +
        (HMMFormModel.predict m f).draw_probability +
        (HMMFormModel.predict m f).away_probability = 1) ∧
    (∀ (weights : List (String × ℚ))
      (preds : List (String × OutcomePrediction)),
      (∀ w ∈ weights, 0 ≤ w.2) →
      (∀ np ∈ preds, 0 ≤ np.2.home_probability ∧ 0 ≤ np.2.draw_probability ∧
        0 ≤ np.2.away_probability) →
      0 < MixtureOfExpertsModel.weighted_sum weights preds (·.home_probability) +
          MixtureOfExpertsModel.weighted_sum weights preds (·.draw_probability) +
          MixtureOfExpertsModel.weighted_sum weights preds (·.away_probability) →
      (0 ≤ (MixtureOfExpertsModel.predict weights preds).home_probability ∧
       0 ≤ (MixtureOfExpertsModel.predict weights preds).draw_probability ∧
       0 ≤ (MixtureOfExpertsModel.predict weights preds).away_probability ∧
       (MixtureOfExpertsModel.predict weights preds).home_probability +
         (MixtureOfExpertsModel.predict weights preds).draw_probability +
         (MixtureOfExpertsModel.predict weights preds).away_probability = 1)) := by
  refine ⟨?_, ?_, ?_⟩
  · intro E m f h1 h2 h3 h4 h5
    have hhp : ∀ k, poissonPmf E (m.adjusted_home f) k =
        some (poissonPmfVal E (m.adjusted_home f) k) := fun k => if_pos h1
    have hap : ∀ k, poissonPmf E (m.adjusted_away f) k =
        some (poissonPmfVal E (m.adjusted_away f) k) := fun k => if_pos h2
    have hB := outcomeBuckets_some _ _ _ _ hhp hap m.max_score
    obtain ⟨hbh, hbd, hba⟩ :=
      outcomeBucketsSum_nonneg (poissonPmfVal E (m.adjusted_home f))
        (poissonPmfVal E (m.adjusted_away f)) m.max_score
        (fun k => poissonPmfVal_nonneg _ _ _ h3.le h1)
        (fun k => poissonPmfVal_nonneg _ _ _ h4.le h2)
    have hpos : 0 <
        (outcomeBucketsSum (poissonPmfVal E (m.adjusted_home f))
          (poissonPmfVal E (m.adjusted_away f)) m.max_score).1 +
        (outcomeBucketsSum (poissonPmfVal E (m.adjusted_home f))
          (poissonPmfVal E (m.adjusted_away f)) m.max_score).2.1 +
        (outcomeBucketsSum (poissonPmfVal E (m.adjusted_home f))
          (poissonPmfVal E (m.adjusted_away f)) m.max_score).2.2 := by
      rw [outcomeBucketsSum_total]
      exact mul_pos (sum_poissonPmfVal_pos E _ _ h3 h1 h5)
        (sum_poissonPmfVal_pos E _ _ h4 h2 h5)
    simp only [PoissonModel.predict, hB, pyAdd, pyLt, pyDiv,
      decide_eq_true_eq]
    rw [if_pos hpos]
    obtain ⟨n1, n2, n3, n4⟩ := normalized_triple _ _ _ hbh hbd hba hpos
    exact ⟨_, _, _, rfl, rfl, rfl, n1, n2, n3, n4⟩
  · intro m f
    rcases f with _ | fv
    · norm_num [HMMFormModel.predict, HMMFormModel.get_state_from_form,
        HMMFormModel.emission_probs]
    · simp only [HMMFormModel.predict]
      rcases hmm_state_cases fv.home_form with hh | hh | hh <;>
        rcases hmm_state_cases fv.away_form with ha | ha | ha <;>
        rw [hh, ha] <;>
        norm_num [HMMFormModel.emission_probs]
  · intro weights preds hw hp ht
    have hfield : ∀ get : OutcomePrediction → ℚ,
        (∀ np ∈ preds, 0 ≤ get np.2) → ∀ v ∈ preds.map Prod.snd, 0 ≤ get v := by
      intro get h v hv
      rcases List.mem_map.mp hv with ⟨np, hnp, rfl⟩
      exact h np hnp
    have hwh := weighted_sum_nonneg weights preds (·.home_probability) hw
      (hfield _ (fun np h => (hp np h).1))
    have hwd := weighted_sum_nonneg weights preds (·.draw_probability) hw
      (hfield _ (fun np h => (hp np h).2.1))
    have hwa := weighted_sum_nonneg weights preds (·.away_probability) hw
      (hfield _ (fun np h => (hp np h).2.2))
    simp only [MixtureOfExpertsModel.predict]
    rw [if_pos ht]
    exact normalized_triple _ _ _ hwh hwd hwa ht


set_option maxHeartbeats 1000000 in
/-- Counterexample for C1 as stated: with the fitted rate
`home_lambda = -3` (reachable through a negative defense-strength
factor, see C10) the scipy argcheck rejects the rate, every pmf value is
NaN, the NaN total fails the normalization guard, and the returned
probability triple is NaN throughout - neither nonnegative numbers nor
summing to 1; and the combiner applied to an empty prediction map
returns the all-zero triple, whose sum 0 is not within 1e-6 of 1. -/
theorem claim1_counterexample :
    (PoissonModel.predict (fun _ => 1)
        { home_lambda := -3, away_lambda := 1 } none).home_probability = none ∧
      (PoissonModel.predict (fun _ => 1)
        { home_lambda := -3, away_lambda := 1 } none).draw_probability = none ∧
      (PoissonModel.predict (fun _ => 1)
        { home_lambda := -3, away_lambda := 1 } none).away_probability = none ∧
      (MixtureOfExpertsModel.predict moeInitWeights []).home_probability = 0 ∧
      (MixtureOfExpertsModel.predict moeInitWeights []).draw_probability = 0 ∧
      (MixtureOfExpertsModel.predict moeInitWeights []).away_probability = 0 := by
  refine ⟨by decide, by decide, by decide, ?_, ?_, ?_⟩
  all_goals
    norm_num [MixtureOfExpertsModel.predict, MixtureOfExpertsModel.weighted_sum,
      moeInitWeights, List.lookup]

/-- The dictionary returned by `PoissonModel._get_default_prediction`
(`models/poisson.py`, lines 102-111): the fixed neutral fallback
33/34/33 with scoreline "1-1". -/
def PoissonModel.default_prediction : OutcomePrediction :=
  ⟨33/100, 34/100, 33/100, ['1', '-', '1'], none⟩

/-- Witness for C1 at concrete inputs: the default Poisson state with a
trivial admissible exp factor, the default form model without features,
and the combiner fed a single default prediction. -/
theorem claim1_witness :
    (∃ h d a : ℚ,
     (PoissonModel.predict (fun _ => 1) {} none).home_probability = some h ∧
     (PoissonModel.predict (fun _ => 1) {} none).draw_probability = some d ∧
     (PoissonModel.predict (fun _ => 1) {} none).away_probability = some a ∧
     0 ≤ h ∧ 0 ≤ d ∧ 0 ≤ a ∧ h + d + a = 1) ∧
    (0 ≤ (HMMFormModel.predict {} none).home_probability ∧
     0 ≤ (HMMFormModel.predict {} none).draw_probability ∧
     0 ≤ (HMMFormModel.predict {} none).away_probability ∧
     (HMMFormModel.predict {} none).home_probability +
       (HMMFormModel.predict {} none).draw_probability +
       (HMMFormModel.predict {} none).away_probability = 1) ∧
    (0 ≤ (MixtureOfExpertsModel.predict moeInitWeights
        [("poisson", PoissonModel.default_prediction)]).home_probability ∧
     0 ≤ (MixtureOfExpertsModel.predict moeInitWeights
        [("poisson", PoissonModel.default_prediction)]).draw_probability ∧
     0 ≤ (MixtureOfExpertsModel.predict moeInitWeights
        [("poisson", PoissonModel.default_prediction)]).away_probability ∧
     (MixtureOfExpertsModel.predict moeInitWeights
        [("poisson", PoissonModel.default_prediction)]).home_probability +
       (MixtureOfExpertsModel.predict moeInitWeights
        [("poisson", PoissonModel.default_prediction)]).draw_probability +
       (MixtureOfExpertsModel.predict moeInitWeights
        [("poisson", PoissonModel.default_prediction)]).away_probability = 1) :=
  ⟨claim1_theorem.1 (fun _ => 1) {} none (by norm_num [PoissonModel.adjusted_home])
      (by norm_num [PoissonModel.adjusted_away]) (by norm_num) (by norm_num)
      (by norm_num),
   claim1_theorem.2.1 {} none,
   claim1_theorem.2.2 moeInitWeights _
     (by norm_num [moeInitWeights])
     (by
       intro np hnp
       rcases List.mem_singleton.mp hnp with rfl
       norm_num [PoissonModel.default_prediction])
     (by
       simp only [MixtureOfExpertsModel.weighted_sum, moeInitWeights,
         List.lookup, List.foldl, String.reduceBEq, beq_self_eq_true,
         PoissonModel.default_prediction]
       norm_num)⟩


/-- C6: fed four identical Outcome Predictions (one per model name)
under the uniform initializer weights 0.25, the combiner reproduces the
common probabilities exactly (their sum being 1, the renormalization
divides by 1) and reproduces the common canonical "H-A" scoreline. -/
theorem claim6_theorem (p : OutcomePrediction) (xs ys : List Char) (H A : ℤ)
    (hsum : p.home_probability + p.draw_probability + p.away_probability = 1)
    (hsplit : splitDash p.predicted_score = [xs, ys])
    (hx : parseIntChars xs = some H)
    (hy : parseIntChars ys = some A)
    (hcanon : p.predicted_score = scoreChars H A) :
    OutcomePrediction.home_probability (MixtureOfExpertsModel.predict
        moeInitWeights
        [("poisson", p), ("negative_binomial", p), ("hawkes", p), ("hmm", p)]) =
        p.home_probability ∧
      OutcomePrediction.draw_probability (MixtureOfExpertsModel.predict
        moeInitWeights
        [("poisson", p), ("negative_binomial", p), ("hawkes", p), ("hmm", p)]) =
        p.draw_probability ∧
      OutcomePrediction.away_probability (MixtureOfExpertsModel.predict
        moeInitWeights
        [("poisson", p), ("negative_binomial", p), ("hawkes", p), ("hmm", p)]) =
        p.away_probability ∧
      OutcomePrediction.predicted_score (MixtureOfExpertsModel.predict
        moeInitWeights
        [("poisson", p), ("negative_binomial", p), ("hawkes", p), ("hmm", p)]) =
        p.predicted_score := by
  have hmean : meanZ [H, H, H, H] = (H : ℚ) := by
    simp [meanZ]
    ring
  have hmeanA : meanZ [A, A, A, A] = (A : ℚ) := by
    simp [meanZ]
    ring
  have hscore : MixtureOfExpertsModel.combine_scores [p, p, p, p] =
      p.predicted_score := by
    simp only [MixtureOfExpertsModel.combine_scores, List.filterMap_cons,
      List.filterMap_nil, hsplit, hx, hy]
    simp only [List.isEmpty_cons, or_self, Bool.false_eq_true, if_false,
      hmean, hmeanA, pyRound_intCast, hcanon]
  simp only [MixtureOfExpertsModel.predict, MixtureOfExpertsModel.weighted_sum,
    moeInitWeights, List.foldl, List.lookup, String.reduceBEq, beq_self_eq_true,
    List.map_cons, List.map_nil, List.isEmpty_cons, Bool.false_eq_true,
    if_false, hscore]
  split_ifs with hc
  · refine ⟨?_, ?_, ?_, rfl⟩ <;>
    · dsimp only
      rw [show (0 : ℚ) + 1/4 * p.home_probability + 1/4 * p.home_probability +
            1/4 * p.home_probability + 1/4 * p.home_probability +
            (0 + 1/4 * p.draw_probability + 1/4 * p.draw_probability +
              1/4 * p.draw_probability + 1/4 * p.draw_probability) +
            (0 + 1/4 * p.away_probability + 1/4 * p.away_probability +
              1/4 * p.away_probability + 1/4 * p.away_probability) = 1
          from by linarith]
      rw [div_one]
      ring
  · exfalso
    refine hc ?_
    have h1 : (0 : ℚ) + 1/4 * p.home_probability + 1/4 * p.home_probability +
        1/4 * p.home_probability + 1/4 * p.home_probability +
        (0 + 1/4 * p.draw_probability + 1/4 * p.draw_probability +
          1/4 * p.draw_probability + 1/4 * p.draw_probability) +
        (0 + 1/4 * p.away_probability + 1/4 * p.away_probability +
          1/4 * p.away_probability + 1/4 * p.away_probability) = 1 := by linarith
    rw [h1]
    norm_num


/-- Witness for C6: four copies of the default prediction (33/34/33 with
scoreline "1-1") pass through the combiner unchanged. -/
theorem claim6_witness :
    OutcomePrediction.home_probability (MixtureOfExpertsModel.predict
        moeInitWeights
        [("poisson", PoissonModel.default_prediction),
         ("negative_binomial", PoissonModel.default_prediction),
         ("hawkes", PoissonModel.default_prediction),
         ("hmm", PoissonModel.default_prediction)]) =
        PoissonModel.default_prediction.home_probability ∧
      OutcomePrediction.draw_probability (MixtureOfExpertsModel.predict
        moeInitWeights
        [("poisson", PoissonModel.default_prediction),
         ("negative_binomial", PoissonModel.default_prediction),
         ("hawkes", PoissonModel.default_prediction),
         ("hmm", PoissonModel.default_prediction)]) =
        PoissonModel.default_prediction.draw_probability ∧
      OutcomePrediction.away_probability (MixtureOfExpertsModel.predict
        moeInitWeights
        [("poisson", PoissonModel.default_prediction),
         ("negative_binomial", PoissonModel.default_prediction),
         ("hawkes", PoissonModel.default_prediction),
         ("hmm", PoissonModel.default_prediction)]) =
        PoissonModel.default_prediction.away_probability ∧
      OutcomePrediction.predicted_score (MixtureOfExpertsModel.predict
        moeInitWeights
        [("poisson", PoissonModel.default_prediction),
         ("negative_binomial", PoissonModel.default_prediction),
         ("hawkes", PoissonModel.default_prediction),
         ("hmm", PoissonModel.default_prediction)]) =
        PoissonModel.default_prediction.predicted_score :=
  claim6_theorem PoissonModel.default_prediction ['1'] ['1'] 1 1
    (by norm_num [PoissonModel.default_prediction])
    (by decide) (by decide) (by decide) (by decide)

